import Mathlib

/-!
Shallow embedding of `src/uuid-freebsd.c` (UUID generation functions for
FreeBSD, a PostgreSQL extension).  The C code builds every UUID as a
canonical 36-character hyphenated hex string and hands it to the external
parser `uuid_in`; here strings are lists of byte values (`List Nat`).

The hash primitives MD5 (`<md5.h>`) and SHA-1 (`<sha.h>`) are external
libmd routines; they are embedded by their standard (RFC 1321 / FIPS 180)
definitions, executable over byte lists.
-/

namespace UuidFreebsd

/-- Modulus for 32-bit machine words. -/
def M32 : Nat := 4294967296

/-- Addition of 32-bit words, with overflow wrap-around. -/
def add32 (a b : Nat) : Nat := (a + b) % M32

/-- Left rotation of a 32-bit word by `n` places. -/
def rotl32 (x n : Nat) : Nat := (((x % M32) <<< n) % M32) ||| ((x % M32) >>> (32 - n))

/-- Bitwise complement of a 32-bit word. -/
def not32 (x : Nat) : Nat := (x % M32) ^^^ 4294967295

/-- Four bytes of a 32-bit word, little-endian (MD5 output order). -/
def bytesLE (w : Nat) : List Nat :=
  [w % 256, w / 256 % 256, w / 65536 % 256, w / 16777216 % 256]

/-- Four bytes of a 32-bit word, big-endian (SHA-1 output order). -/
def bytesBE (w : Nat) : List Nat :=
  [w / 16777216 % 256, w / 65536 % 256, w / 256 % 256, w % 256]

/-- Little-endian 64-bit length field of the MD5 padding. -/
def lenLE (n : Nat) : List Nat :=
  [n % 256, n / 256 % 256, n / 65536 % 256, n / 16777216 % 256,
   n / 4294967296 % 256, n / 1099511627776 % 256,
   n / 281474976710656 % 256, n / 72057594037927936 % 256]

/-- Big-endian 64-bit length field of the SHA-1 padding. -/
def lenBE (n : Nat) : List Nat :=
  [n / 72057594037927936 % 256, n / 281474976710656 % 256,
   n / 1099511627776 % 256, n / 4294967296 % 256,
   n / 16777216 % 256, n / 65536 % 256, n / 256 % 256, n % 256]

/-- Word `j` of a 64-byte block, read little-endian (MD5). -/
def wordLE (block : List Nat) (j : Nat) : Nat :=
  block.getD (4*j) 0 + 256 * block.getD (4*j+1) 0 +
  65536 * block.getD (4*j+2) 0 + 16777216 * block.getD (4*j+3) 0

/-- Word `j` of a 64-byte block, read big-endian (SHA-1). -/
def wordBE (block : List Nat) (j : Nat) : Nat :=
  16777216 * block.getD (4*j) 0 + 65536 * block.getD (4*j+1) 0 +
  256 * block.getD (4*j+2) 0 + block.getD (4*j+3) 0

/-- Fuel-driven splitting of a byte list into successive 64-byte blocks;
the fuel only bounds the recursion depth. -/
def chunksAux : Nat → List Nat → List (List Nat)
  | 0, _ => []
  | _ + 1, [] => []
  | n + 1, b :: l => (b :: l).take 64 :: chunksAux n ((b :: l).drop 64)

/-- Split a byte list into successive 64-byte blocks. -/
def chunks64 (l : List Nat) : List (List Nat) := chunksAux l.length l

/-- Merkle–Damgard padding shared by MD5 and SHA-1: one `0x80` byte, zero
bytes up to 56 mod 64, then an 8-byte bit length. -/
def mdPad (msg : List Nat) (lenField : Nat → List Nat) : List Nat :=
  msg ++ 128 :: List.replicate ((119 - msg.length % 64) % 64) 0 ++ lenField (8 * msg.length)

/-- MD5 sine-derived round constants (RFC 1321). -/
def md5K : List Nat :=
  [0xd76aa478, 0xe8c7b756, 0x242070db, 0xc1bdceee, 0xf57c0faf, 0x4787c62a, 0xa8304613, 0xfd469501,
   0x698098d8, 0x8b44f7af, 0xffff5bb1, 0x895cd7be, 0x6b901122, 0xfd987193, 0xa679438e, 0x49b40821,
   0xf61e2562, 0xc040b340, 0x265e5a51, 0xe9b6c7aa, 0xd62f105d, 0x02441453, 0xd8a1e681, 0xe7d3fbc8,
   0x21e1cde6, 0xc33707d6, 0xf4d50d87, 0x455a14ed, 0xa9e3e905, 0xfcefa3f8, 0x676f02d9, 0x8d2a4c8a,
   0xfffa3942, 0x8771f681, 0x6d9d6122, 0xfde5380c, 0xa4beea44, 0x4bdecfa9, 0xf6bb4b60, 0xbebfbc70,
   0x289b7ec6, 0xeaa127fa, 0xd4ef3085, 0x04881d05, 0xd9d4d039, 0xe6db99e5, 0x1fa27cf8, 0xc4ac5665,
   0xf4292244, 0x432aff97, 0xab9423a7, 0xfc93a039, 0x655b59c3, 0x8f0ccc92, 0xffeff47d, 0x85845dd1,
   0x6fa87e4f, 0xfe2ce6e0, 0xa3014314, 0x4e0811a1, 0xf7537e82, 0xbd3af235, 0x2ad7d2bb, 0xeb86d391]

/-- MD5 per-round left-rotation amounts, indexed by round group and position. -/
def md5S : List Nat := [7, 12, 17, 22, 5, 9, 14, 20, 4, 11, 16, 23, 6, 10, 15, 21]

/-- MD5 nonlinear round function. -/
def md5F (i b c d : Nat) : Nat :=
  if i < 16 then (b &&& c) ||| (not32 b &&& d)
  else if i < 32 then (d &&& b) ||| (not32 d &&& c)
  else if i < 48 then b ^^^ c ^^^ d
  else c ^^^ (b ||| not32 d)

/-- MD5 message-word index for round `i`. -/
def md5G (i : Nat) : Nat :=
  if i < 16 then i
  else if i < 32 then (5*i + 1) % 16
  else if i < 48 then (3*i + 5) % 16
  else (7*i) % 16

/-- One MD5 round on the state `(a, b, c, d)`. -/
def md5Step (block : List Nat) (st : Nat × Nat × Nat × Nat) (i : Nat) : Nat × Nat × Nat × Nat :=
  match st with
  | (a, b, c, d) =>
    (d,
     add32 b (rotl32 (add32 (add32 (add32 a (md5F i b c d)) (md5K.getD i 0))
       (wordLE block (md5G i))) (md5S.getD (i / 16 * 4 + i % 4) 0)),
     b, c)

/-- MD5 compression of one 64-byte block. -/
def md5Compress (st : Nat × Nat × Nat × Nat) (block : List Nat) : Nat × Nat × Nat × Nat :=
  let r := (List.range 64).foldl (md5Step block) st
  (add32 st.1 r.1, add32 st.2.1 r.2.1, add32 st.2.2.1 r.2.2.1, add32 st.2.2.2 r.2.2.2)

/-- MD5 digest (16 bytes) of a byte list, per RFC 1321; embeds the libmd
`MD5Init`/`MD5Update`/`MD5Final` sequence used by the C code. -/
def md5 (msg : List Nat) : List Nat :=
  let st := (chunks64 (mdPad msg lenLE)).foldl md5Compress
    (0x67452301, 0xefcdab89, 0x98badcfe, 0x10325476)
  bytesLE st.1 ++ bytesLE st.2.1 ++ bytesLE st.2.2.1 ++ bytesLE st.2.2.2

/-- SHA-1 nonlinear round function. -/
def sha1F (i b c d : Nat) : Nat :=
  if i < 20 then (b &&& c) ||| (not32 b &&& d)
  else if i < 40 then b ^^^ c ^^^ d
  else if i < 60 then (b &&& c) ||| (b &&& d) ||| (c &&& d)
  else b ^^^ c ^^^ d

/-- SHA-1 round constants. -/
def sha1KC (i : Nat) : Nat :=
  if i < 20 then 0x5A827999
  else if i < 40 then 0x6ED9EBA1
  else if i < 60 then 0x8F1BBCDC
  else 0xCA62C1D6

/-- SHA-1 expanded message schedule (80 words) of one block. -/
def sha1W (block : List Nat) : List Nat :=
  (List.range 80).foldl (fun ws i =>
    ws ++ [if i < 16 then wordBE block i
           else rotl32 (ws.getD (i-3) 0 ^^^ ws.getD (i-8) 0 ^^^
                        ws.getD (i-14) 0 ^^^ ws.getD (i-16) 0) 1]) []

/-- One SHA-1 round on the state `(a, b, c, d, e)`. -/
def sha1Step (w : List Nat) (st : Nat × Nat × Nat × Nat × Nat) (i : Nat) :
    Nat × Nat × Nat × Nat × Nat :=
  match st with
  | (a, b, c, d, e) =>
    (add32 (add32 (add32 (add32 (rotl32 a 5) (sha1F i b c d)) e)
       (sha1KC i)) (w.getD i 0),
     a, rotl32 b 30, c, d)

/-- SHA-1 compression of one 64-byte block. -/
def sha1Compress (st : Nat × Nat × Nat × Nat × Nat) (block : List Nat) :
    Nat × Nat × Nat × Nat × Nat :=
  let r := (List.range 80).foldl (sha1Step (sha1W block)) st
  (add32 st.1 r.1, add32 st.2.1 r.2.1, add32 st.2.2.1 r.2.2.1,
   add32 st.2.2.2.1 r.2.2.2.1, add32 st.2.2.2.2 r.2.2.2.2)

/-- SHA-1 digest (20 bytes) of a byte list, per FIPS 180; embeds the libmd
`SHA1_Init`/`SHA1_Update`/`SHA1_Final` sequence used by the C code. -/
def sha1 (msg : List Nat) : List Nat :=
  let st := (chunks64 (mdPad msg lenBE)).foldl sha1Compress
    (0x67452301, 0xefcdab89, 0x98badcfe, 0x10325476, 0xc3d2e1f0)
  bytesBE st.1 ++ bytesBE st.2.1 ++ bytesBE st.2.2.1 ++
  bytesBE st.2.2.2.1 ++ bytesBE st.2.2.2.2

/-- Lowercase hex digit (as an ASCII byte) of the low nibble of `n`;
models one digit emitted by `sprintf %x`. -/
def hexChar (n : Nat) : Nat := if n % 16 < 10 then 48 + n % 16 else 87 + n % 16

/-- Two lowercase hex digits of the low byte of `n`; models `%02x`
for arguments below 256, which every call site guarantees. -/
def hex2 (n : Nat) : List Nat := [hexChar (n / 16), hexChar n]

/-- Four lowercase hex digits of the low 16 bits of `n`; models `%04x`
for arguments below 65536, which every call site guarantees. -/
def hex4 (n : Nat) : List Nat := hex2 (n / 256) ++ hex2 n

/-- Eight lowercase hex digits of the low 32 bits of `n`; models `%08x`
for arguments below 2^32, which every call site guarantees. -/
def hex8 (n : Nat) : List Nat := hex4 (n / 65536) ++ hex4 n

/-- Byte values of a Lean string literal, used for the constant C string
literals of the source. -/
def strBytes (s : String) : List Nat := s.toList.map Char.toNat

/-- Canonical 36-character formatting of 16 byte values, exactly the
`"%02x%02x%02x%02x-%02x%02x-%02x%02x-%02x%02x-%02x%02x%02x%02x%02x%02x"`
format string of the v3/v5 branches of `internal_uuid_create` (45 is `-`). -/
def fmtUUID (b0 b1 b2 b3 b4 b5 b6 b7 b8 b9 b10 b11 b12 b13 b14 b15 : Nat) : List Nat :=
  hex2 b0 ++ hex2 b1 ++ hex2 b2 ++ hex2 b3 ++ 45 ::
  (hex2 b4 ++ hex2 b5 ++ 45 :: (hex2 b6 ++ hex2 b7 ++ 45 ::
  (hex2 b8 ++ hex2 b9 ++ 45 ::
  (hex2 b10 ++ hex2 b11 ++ hex2 b12 ++ hex2 b13 ++ hex2 b14 ++ hex2 b15))))

/-- String built by the `case 3` (MD5) branch of `internal_uuid_create`:
digest of the 16 namespace bytes followed by the name bytes, with the
version nibble of byte 6 forced to 3 and the variant bits of byte 8
forced to binary 10. -/
def uuidV3String (ns name : List Nat) : List Nat :=
  fmtUUID ((md5 (ns ++ name)).getD 0 0) ((md5 (ns ++ name)).getD 1 0)
    ((md5 (ns ++ name)).getD 2 0) ((md5 (ns ++ name)).getD 3 0)
    ((md5 (ns ++ name)).getD 4 0) ((md5 (ns ++ name)).getD 5 0)
    (((md5 (ns ++ name)).getD 6 0 &&& 0xf) ||| 0x30) ((md5 (ns ++ name)).getD 7 0)
    (((md5 (ns ++ name)).getD 8 0 &&& 0x3F) ||| 0x80) ((md5 (ns ++ name)).getD 9 0)
    ((md5 (ns ++ name)).getD 10 0) ((md5 (ns ++ name)).getD 11 0)
    ((md5 (ns ++ name)).getD 12 0) ((md5 (ns ++ name)).getD 13 0)
    ((md5 (ns ++ name)).getD 14 0) ((md5 (ns ++ name)).getD 15 0)

/-- String built by the `case 5` (SHA-1) branch of `internal_uuid_create`:
first 16 digest bytes of the 20-byte SHA-1 digest, with the version
nibble of byte 6 forced to 5 and the variant bits of byte 8 forced to
binary 10. -/
def uuidV5String (ns name : List Nat) : List Nat :=
  fmtUUID ((sha1 (ns ++ name)).getD 0 0) ((sha1 (ns ++ name)).getD 1 0)
    ((sha1 (ns ++ name)).getD 2 0) ((sha1 (ns ++ name)).getD 3 0)
    ((sha1 (ns ++ name)).getD 4 0) ((sha1 (ns ++ name)).getD 5 0)
    (((sha1 (ns ++ name)).getD 6 0 &&& 0xf) ||| 0x50) ((sha1 (ns ++ name)).getD 7 0)
    (((sha1 (ns ++ name)).getD 8 0 &&& 0x3F) ||| 0x80) ((sha1 (ns ++ name)).getD 9 0)
    ((sha1 (ns ++ name)).getD 10 0) ((sha1 (ns ++ name)).getD 11 0)
    ((sha1 (ns ++ name)).getD 12 0) ((sha1 (ns ++ name)).getD 13 0)
    ((sha1 (ns ++ name)).getD 14 0) ((sha1 (ns ++ name)).getD 15 0)

/-- Environment supplied by the host: the `arc4random` stream (call `i`
returns `rand i`, truncated to 32 bits at use), and the external FreeBSD
`uuid_create`/`uuid_to_string` provider, modelled by the status each of
the two calls reports and the canonical string the provider would emit. -/
structure Env where
  rand : Nat → Nat
  createStatus : Nat
  providerStr : List Nat
  toStringStatus : Nat

/-- The FreeBSD `uuid_s_ok` status code. -/
def uuid_s_ok : Nat := 0

/-- Value of the `i`-th `arc4random()` call: a 32-bit word. -/
def rand32 (env : Env) (i : Nat) : Nat := env.rand i % M32

/-- String built by the `case 4` (random) branch of `internal_uuid_create`:
`sprintf("%08lx-%04x-%04x-%04x-%04x%08lx", ...)` over six `arc4random`
words, with the version nibble forced to 4 and the variant bits to 10. -/
def v4String (env : Env) : List Nat :=
  hex8 (rand32 env 0) ++ 45 ::
  (hex4 (rand32 env 1 &&& 0xffff) ++ 45 ::
  (hex4 ((rand32 env 2 &&& 0xfff) ||| 0x4000) ++ 45 ::
  (hex4 ((rand32 env 3 &&& 0x3fff) ||| 0x8000) ++ 45 ::
  (hex4 (rand32 env 4 &&& 0xffff) ++ hex8 (rand32 env 5)))))

/-- The 18-character tail `sprintf("-%04x-%04x%08lx", ...)` built by
`uuid_generate_v1mc` from three `arc4random` words: a fresh clock
sequence with its top two bits forced to 10, and a node id whose first
octet has the IEEE802 multicast and local-admin bits forced. -/
def v1mcBuf (env : Env) : List Nat :=
  45 :: (hex4 ((rand32 env 0 &&& 0x3FFF) ||| 0x8000) ++ 45 ::
  (hex4 ((rand32 env 1 &&& 0xffff) ||| 0x0300) ++ hex8 (rand32 env 2)))

/-- The dispatcher `internal_uuid_create(v, ns, ptr, len)`.  The result is
the canonical string placed in `strbuf` (to be handed to `uuid_in`), or
the non-ok provider status raised through `ereport(ERROR)` in the
time-based branch.  `ptr` carries the C `ptr`/`len` pair (a byte list);
`ns` is only read by the hash branches, the name bytes are `ptr`. -/
def internal_uuid_create (env : Env) (v : Nat) (ns : List Nat) (ptr : Option (List Nat)) :
    Except Nat (List Nat) :=
  if v = 0 then
    Except.ok ((ptr.getD []).take 36)
  else if v = 1 then
    if env.createStatus = uuid_s_ok then
      if env.toStringStatus = uuid_s_ok then
        match ptr with
        | some p =>
          if p.length ≤ 36 then
            Except.ok ((env.providerStr.take 36).take (36 - p.length) ++ p)
          else Except.ok (env.providerStr.take 36)
        | none => Except.ok (env.providerStr.take 36)
      else Except.error env.toStringStatus
    else Except.error env.createStatus
  else if v = 3 then
    Except.ok (uuidV3String ns (ptr.getD []))
  else if v = 5 then
    Except.ok (uuidV5String ns (ptr.getD []))
  else
    Except.ok (v4String env)

/-- `uuid_nil()`. -/
def uuid_nil (env : Env) : Except Nat (List Nat) :=
  internal_uuid_create env 0 [] (some (strBytes "00000000-0000-0000-0000-000000000000"))

/-- `uuid_ns_dns()`. -/
def uuid_ns_dns (env : Env) : Except Nat (List Nat) :=
  internal_uuid_create env 0 [] (some (strBytes "6ba7b810-9dad-11d1-80b4-00c04fd430c8"))

/-- `uuid_ns_url()`. -/
def uuid_ns_url (env : Env) : Except Nat (List Nat) :=
  internal_uuid_create env 0 [] (some (strBytes "6ba7b811-9dad-11d1-80b4-00c04fd430c8"))

/-- `uuid_ns_oid()`. -/
def uuid_ns_oid (env : Env) : Except Nat (List Nat) :=
  internal_uuid_create env 0 [] (some (strBytes "6ba7b812-9dad-11d1-80b4-00c04fd430c8"))

/-- `uuid_ns_x500()`. -/
def uuid_ns_x500 (env : Env) : Except Nat (List Nat) :=
  internal_uuid_create env 0 [] (some (strBytes "6ba7b814-9dad-11d1-80b4-00c04fd430c8"))

/-- `uuid_generate_v1()`. -/
def uuid_generate_v1 (env : Env) : Except Nat (List Nat) :=
  internal_uuid_create env 1 [] none

/-- `uuid_generate_v1mc()`: three `arc4random` words are formatted into an
18-character tail that `internal_uuid_create` splices over the end of the
provider's v1 string. -/
def uuid_generate_v1mc (env : Env) : Except Nat (List Nat) :=
  internal_uuid_create env 1 [] (some (v1mcBuf env))

/-- `uuid_generate_v3(namespace, name)`. -/
def uuid_generate_v3 (env : Env) (ns name : List Nat) : Except Nat (List Nat) :=
  internal_uuid_create env 3 ns (some name)

/-- `uuid_generate_v4()`. -/
def uuid_generate_v4 (env : Env) : Except Nat (List Nat) :=
  internal_uuid_create env 4 [] none

/-- `uuid_generate_v5(namespace, name)`. -/
def uuid_generate_v5 (env : Env) (ns name : List Nat) : Except Nat (List Nat) :=
  internal_uuid_create env 5 ns (some name)

/-- Value of an ASCII hex digit, upper or lower case. -/
def hexVal (c : Nat) : Option Nat :=
  if 48 ≤ c ∧ c ≤ 57 then some (c - 48)
  else if 97 ≤ c ∧ c ≤ 102 then some (c - 87)
  else if 65 ≤ c ∧ c ≤ 70 then some (c - 55)
  else none

/-- Nibble values of a canonical UUID string, scanned from position
`pos`: a hyphen is accepted exactly at positions 8, 13, 18 and 23, every
other character must be a hex digit. -/
def parseNibbles : List Nat → Nat → Option (List Nat)
  | [], _ => some []
  | c :: rest, pos =>
    if c = 45 then
      if pos = 8 ∨ pos = 13 ∨ pos = 18 ∨ pos = 23 then parseNibbles rest (pos + 1)
      else none
    else
      match hexVal c, parseNibbles rest (pos + 1) with
      | some v, some vs => some (v :: vs)
      | _, _ => none

/-- Pair up a list of nibble values into bytes. -/
def pairUp : List Nat → Option (List Nat)
  | [] => some []
  | [_] => none
  | a :: b :: rest =>
    match pairUp rest with
    | some bs => some ((16 * a + b) :: bs)
    | none => none

/-- Modelled from the spec: the external string-to-UUID parser (`uuid_in`
of the host database, section 4.5 of the spec), restricted to the
canonical 36-character hyphenated form that is the exchange format at
this boundary; yields the 16 bytes of the UUID. -/
def parseUUID (s : List Nat) : Option (List Nat) :=
  if s.length = 36 then
    match parseNibbles s 0 with
    | some vs => pairUp vs
    | none => none
  else none

/-! ### Bridge lemmas between the C bit operations and arithmetic -/

theorem mul_two_pow_or (i a b : Nat) : 2 ^ i * a ||| 2 ^ i * b = 2 ^ i * (a ||| b) := by
  apply Nat.eq_of_testBit_eq
  intro j
  by_cases h : i ≤ j <;>
    simp [Nat.testBit_or, Nat.testBit_mul_pow_two, h, Bool.and_or_distrib_left]

theorem lor_split (k a b c d : Nat) (hb : b < 2 ^ k) (hd : d < 2 ^ k) :
    (2 ^ k * a + b) ||| (2 ^ k * c + d) = 2 ^ k * (a ||| c) + (b ||| d) := by
  rw [Nat.mul_add_lt_is_or hb, Nat.mul_add_lt_is_or hd]
  rw [Nat.or_assoc, ← Nat.or_assoc b (2 ^ k * c) d, Nat.or_comm b (2 ^ k * c),
      Nat.or_assoc (2 ^ k * c) b d, ← Nat.or_assoc, mul_two_pow_or]
  exact (Nat.mul_add_lt_is_or (Nat.or_lt_two_pow hb hd) (a ||| c)).symm

theorem or_high (k a m : Nat) (h : m < 2 ^ k) : m ||| 2 ^ k * a = 2 ^ k * a + m := by
  rw [Nat.or_comm]
  exact (Nat.mul_add_lt_is_or h a).symm

theorem or48 {m : Nat} (h : m < 16) : m ||| 48 = 48 + m := by
  have h' : m < 2 ^ 4 := by simpa using h
  have hor := or_high 4 3 m h'
  norm_num at hor
  exact hor

theorem or80 {m : Nat} (h : m < 16) : m ||| 80 = 80 + m := by
  have h' : m < 2 ^ 4 := by simpa using h
  have hor := or_high 4 5 m h'
  norm_num at hor
  exact hor

theorem or128 {m : Nat} (h : m < 64) : m ||| 128 = 128 + m := by
  have h' : m < 2 ^ 6 := by simpa using h
  have hor := or_high 6 2 m h'
  norm_num at hor
  exact hor

theorem or16384 {m : Nat} (h : m < 4096) : m ||| 16384 = 16384 + m := by
  have h' : m < 2 ^ 12 := by simpa using h
  have hor := or_high 12 4 m h'
  norm_num at hor
  exact hor

theorem or32768 {m : Nat} (h : m < 16384) : m ||| 32768 = 32768 + m := by
  have h' : m < 2 ^ 14 := by simpa using h
  have hor := or_high 14 2 m h'
  norm_num at hor
  exact hor

theorem or3 {x : Nat} (h : x < 4) : x ||| 3 = 3 := by
  interval_cases x <;> decide

theorem or768 (m : Nat) : m ||| 768 = 1024 * (m / 1024) + 768 + m % 256 := by
  have h1 : m % 256 < 2 ^ 8 := by simpa using Nat.mod_lt m (by norm_num)
  have h0 : (0 : Nat) < 2 ^ 8 := by norm_num
  have hm : 2 ^ 8 * (m / 256) + m % 256 = m := by simpa using Nat.div_add_mod m 256
  have step1 : m ||| 768 = 2 ^ 8 * (m / 256 ||| 3) + (m % 256 ||| 0) := by
    calc m ||| 768 = (2 ^ 8 * (m / 256) + m % 256) ||| (2 ^ 8 * 3 + 0) := by
          rw [hm]; norm_num
    _ = 2 ^ 8 * (m / 256 ||| 3) + (m % 256 ||| 0) := lor_split 8 _ _ _ _ h1 h0
  have h2 : m / 256 % 4 < 2 ^ 2 := by simpa using Nat.mod_lt (m / 256) (by norm_num)
  have h3 : (3 : Nat) < 2 ^ 2 := by norm_num
  have hq : 2 ^ 2 * (m / 256 / 4) + m / 256 % 4 = m / 256 := by
    simpa using Nat.div_add_mod (m / 256) 4
  have step2 : m / 256 ||| 3 = 4 * (m / 1024) + 3 := by
    calc m / 256 ||| 3 = (2 ^ 2 * (m / 256 / 4) + m / 256 % 4) ||| (2 ^ 2 * 0 + 3) := by
          rw [hq]; norm_num
    _ = 2 ^ 2 * (m / 256 / 4 ||| 0) + (m / 256 % 4 ||| 3) := lor_split 2 _ _ _ _ h2 h3
    _ = 4 * (m / 1024) + 3 := by
          rw [Nat.or_zero, or3 h2, Nat.div_div_eq_div_mul]
          norm_num
  rw [step1, step2, Nat.or_zero]
  ring_nf

theorem and15 (x : Nat) : x &&& 15 = x % 16 := by
  have hh := Nat.and_pow_two_sub_one_eq_mod x 4
  norm_num at hh
  exact hh

theorem and63 (x : Nat) : x &&& 63 = x % 64 := by
  have hh := Nat.and_pow_two_sub_one_eq_mod x 6
  norm_num at hh
  exact hh

theorem and4095 (x : Nat) : x &&& 4095 = x % 4096 := by
  have hh := Nat.and_pow_two_sub_one_eq_mod x 12
  norm_num at hh
  exact hh

theorem and16383 (x : Nat) : x &&& 16383 = x % 16384 := by
  have hh := Nat.and_pow_two_sub_one_eq_mod x 14
  norm_num at hh
  exact hh

theorem and65535 (x : Nat) : x &&& 65535 = x % 65536 := by
  have hh := Nat.and_pow_two_sub_one_eq_mod x 16
  norm_num at hh
  exact hh

/-! ### Formatting and parsing lemmas -/

theorem hexVal_hexChar (n : Nat) : hexVal (hexChar n) = some (n % 16) := by
  have h16 : n % 16 < 16 := Nat.mod_lt _ (by norm_num)
  by_cases h10 : n % 16 < 10
  · simp only [hexChar, if_pos h10, hexVal]
    rw [if_pos (by omega)]
    simp only [Option.some.injEq]
    omega
  · simp only [hexChar, if_neg h10, hexVal]
    rw [if_neg (by omega), if_pos (by omega)]
    simp only [Option.some.injEq]
    omega

theorem hexChar_ne_dash (n : Nat) : hexChar n ≠ 45 := by
  unfold hexChar
  split_ifs <;> omega

theorem nibble_pair (b : Nat) : 16 * (b / 16 % 16) + b % 16 = b % 256 := by omega

theorem parse_fmt (b0 b1 b2 b3 b4 b5 b6 b7 b8 b9 b10 b11 b12 b13 b14 b15 : Nat) :
    parseUUID (fmtUUID b0 b1 b2 b3 b4 b5 b6 b7 b8 b9 b10 b11 b12 b13 b14 b15) =
    some [b0 % 256, b1 % 256, b2 % 256, b3 % 256, b4 % 256, b5 % 256, b6 % 256, b7 % 256,
          b8 % 256, b9 % 256, b10 % 256, b11 % 256, b12 % 256, b13 % 256, b14 % 256,
          b15 % 256] := by
  simp [parseUUID, fmtUUID, hex2, parseNibbles, pairUp, hexVal_hexChar, hexChar_ne_dash,
        nibble_pair]

/-! ### Digest shape facts -/

theorem md5_length (msg : List Nat) : (md5 msg).length = 16 := by
  simp [md5, bytesLE]

theorem sha1_length (msg : List Nat) : (sha1 msg).length = 20 := by
  simp [sha1, bytesBE]

theorem md5_mem_lt (msg : List Nat) : ∀ b ∈ md5 msg, b < 256 := by
  intro b hb
  simp [md5, bytesLE] at hb
  rcases hb with h | h | h | h | h | h | h | h | h | h | h | h | h | h | h | h <;>
    omega

theorem sha1_mem_lt (msg : List Nat) : ∀ b ∈ sha1 msg, b < 256 := by
  intro b hb
  simp [sha1, bytesBE] at hb
  rcases hb with h | h | h | h | h | h | h | h | h | h | h | h | h | h | h | h | h | h | h | h <;>
    omega

theorem exists_eq_list16 (l : List Nat) (h : l.length = 16) :
    ∃ a0 a1 a2 a3 a4 a5 a6 a7 a8 a9 a10 a11 a12 a13 a14 a15,
      l = [a0, a1, a2, a3, a4, a5, a6, a7, a8, a9, a10, a11, a12, a13, a14, a15] := by
  obtain ⟨a0, l, rfl⟩ := List.exists_of_length_succ l h
  obtain ⟨a1, l, rfl⟩ := List.exists_of_length_succ l
    (show l.length = 15 by simp only [List.length_cons] at h; omega)
  obtain ⟨a2, l, rfl⟩ := List.exists_of_length_succ l
    (show l.length = 14 by simp only [List.length_cons] at h; omega)
  obtain ⟨a3, l, rfl⟩ := List.exists_of_length_succ l
    (show l.length = 13 by simp only [List.length_cons] at h; omega)
  obtain ⟨a4, l, rfl⟩ := List.exists_of_length_succ l
    (show l.length = 12 by simp only [List.length_cons] at h; omega)
  obtain ⟨a5, l, rfl⟩ := List.exists_of_length_succ l
    (show l.length = 11 by simp only [List.length_cons] at h; omega)
  obtain ⟨a6, l, rfl⟩ := List.exists_of_length_succ l
    (show l.length = 10 by simp only [List.length_cons] at h; omega)
  obtain ⟨a7, l, rfl⟩ := List.exists_of_length_succ l
    (show l.length = 9 by simp only [List.length_cons] at h; omega)
  obtain ⟨a8, l, rfl⟩ := List.exists_of_length_succ l
    (show l.length = 8 by simp only [List.length_cons] at h; omega)
  obtain ⟨a9, l, rfl⟩ := List.exists_of_length_succ l
    (show l.length = 7 by simp only [List.length_cons] at h; omega)
  obtain ⟨a10, l, rfl⟩ := List.exists_of_length_succ l
    (show l.length = 6 by simp only [List.length_cons] at h; omega)
  obtain ⟨a11, l, rfl⟩ := List.exists_of_length_succ l
    (show l.length = 5 by simp only [List.length_cons] at h; omega)
  obtain ⟨a12, l, rfl⟩ := List.exists_of_length_succ l
    (show l.length = 4 by simp only [List.length_cons] at h; omega)
  obtain ⟨a13, l, rfl⟩ := List.exists_of_length_succ l
    (show l.length = 3 by simp only [List.length_cons] at h; omega)
  obtain ⟨a14, l, rfl⟩ := List.exists_of_length_succ l
    (show l.length = 2 by simp only [List.length_cons] at h; omega)
  obtain ⟨a15, l, rfl⟩ := List.exists_of_length_succ l
    (show l.length = 1 by simp only [List.length_cons] at h; omega)
  have hnil : l = [] := by simp only [List.length_cons] at h; exact
    List.eq_nil_of_length_eq_zero (by omega)
  subst hnil
  exact ⟨a0, a1, a2, a3, a4, a5, a6, a7, a8, a9, a10, a11, a12, a13, a14, a15, rfl⟩

theorem exists_eq_list20 (l : List Nat) (h : l.length = 20) :
    ∃ a0 a1 a2 a3 a4 a5 a6 a7 a8 a9 a10 a11 a12 a13 a14 a15 a16 a17 a18 a19,
      l = [a0, a1, a2, a3, a4, a5, a6, a7, a8, a9, a10, a11, a12, a13, a14, a15,
           a16, a17, a18, a19] := by
  obtain ⟨a0, l, rfl⟩ := List.exists_of_length_succ l h
  obtain ⟨a1, l, rfl⟩ := List.exists_of_length_succ l
    (show l.length = 19 by simp only [List.length_cons] at h; omega)
  obtain ⟨a2, l, rfl⟩ := List.exists_of_length_succ l
    (show l.length = 18 by simp only [List.length_cons] at h; omega)
  obtain ⟨a3, l, rfl⟩ := List.exists_of_length_succ l
    (show l.length = 17 by simp only [List.length_cons] at h; omega)
  obtain ⟨a4, l, rfl⟩ := List.exists_of_length_succ l
    (show l.length = 16 by simp only [List.length_cons] at h; omega)
  obtain ⟨a5, l, rfl⟩ := List.exists_of_length_succ l
    (show l.length = 15 by simp only [List.length_cons] at h; omega)
  obtain ⟨a6, l, rfl⟩ := List.exists_of_length_succ l
    (show l.length = 14 by simp only [List.length_cons] at h; omega)
  obtain ⟨a7, l, rfl⟩ := List.exists_of_length_succ l
    (show l.length = 13 by simp only [List.length_cons] at h; omega)
  obtain ⟨a8, l, rfl⟩ := List.exists_of_length_succ l
    (show l.length = 12 by simp only [List.length_cons] at h; omega)
  obtain ⟨a9, l, rfl⟩ := List.exists_of_length_succ l
    (show l.length = 11 by simp only [List.length_cons] at h; omega)
  obtain ⟨a10, l, rfl⟩ := List.exists_of_length_succ l
    (show l.length = 10 by simp only [List.length_cons] at h; omega)
  obtain ⟨a11, l, rfl⟩ := List.exists_of_length_succ l
    (show l.length = 9 by simp only [List.length_cons] at h; omega)
  obtain ⟨a12, l, rfl⟩ := List.exists_of_length_succ l
    (show l.length = 8 by simp only [List.length_cons] at h; omega)
  obtain ⟨a13, l, rfl⟩ := List.exists_of_length_succ l
    (show l.length = 7 by simp only [List.length_cons] at h; omega)
  obtain ⟨a14, l, rfl⟩ := List.exists_of_length_succ l
    (show l.length = 6 by simp only [List.length_cons] at h; omega)
  obtain ⟨a15, l, rfl⟩ := List.exists_of_length_succ l
    (show l.length = 5 by simp only [List.length_cons] at h; omega)
  obtain ⟨a16, l, rfl⟩ := List.exists_of_length_succ l
    (show l.length = 4 by simp only [List.length_cons] at h; omega)
  obtain ⟨a17, l, rfl⟩ := List.exists_of_length_succ l
    (show l.length = 3 by simp only [List.length_cons] at h; omega)
  obtain ⟨a18, l, rfl⟩ := List.exists_of_length_succ l
    (show l.length = 2 by simp only [List.length_cons] at h; omega)
  obtain ⟨a19, l, rfl⟩ := List.exists_of_length_succ l
    (show l.length = 1 by simp only [List.length_cons] at h; omega)
  have hnil : l = [] := by simp only [List.length_cons] at h; exact
    List.eq_nil_of_length_eq_zero (by omega)
  subst hnil
  exact ⟨a0, a1, a2, a3, a4, a5, a6, a7, a8, a9, a10, a11, a12, a13, a14, a15,
         a16, a17, a18, a19, rfl⟩

/-! ### Mask characterizations (unconditional forms of the C bit fiddling) -/

theorem mask30 (d : Nat) : (d &&& 15) ||| 48 = 48 + d % 16 := by
  rw [and15]
  exact or48 (Nat.mod_lt _ (by norm_num))

theorem mask50 (d : Nat) : (d &&& 15) ||| 80 = 80 + d % 16 := by
  rw [and15]
  exact or80 (Nat.mod_lt _ (by norm_num))

theorem mask80 (d : Nat) : (d &&& 63) ||| 128 = 128 + d % 64 := by
  rw [and63]
  exact or128 (Nat.mod_lt _ (by norm_num))

theorem mask4000 (r : Nat) : (r &&& 4095) ||| 16384 = 16384 + r % 4096 := by
  rw [and4095]
  exact or16384 (Nat.mod_lt _ (by norm_num))

theorem mask8000 (r : Nat) : (r &&& 16383) ||| 32768 = 32768 + r % 16384 := by
  rw [and16383]
  exact or32768 (Nat.mod_lt _ (by norm_num))

theorem mask0300 (r : Nat) : (r &&& 65535) ||| 768 =
    1024 * (r % 65536 / 1024) + 768 + r % 256 := by
  rw [and65535, or768]
  omega

/-! ### Helper definitions for the claims -/

/-- Fixed trivial environment used to state closed instances. -/
def envTriv : Env := ⟨fun _ => 0, 0, [], 0⟩

/-- Raw bytes of the RFC 4122 DNS namespace UUID. -/
def dnsNamespaceBytes : List Nat :=
  [0x6b, 0xa7, 0xb8, 0x10, 0x9d, 0xad, 0x11, 0xd1,
   0x80, 0xb4, 0x00, 0xc0, 0x4f, 0xd4, 0x30, 0xc8]

/-- High nibble of byte 6 of a 16-byte UUID: the version field. -/
def versionNibble (bs : List Nat) : Nat := bs.getD 6 0 / 16

/-- Top two bits of byte 8 of a 16-byte UUID: the variant field. -/
def variantBits (bs : List Nat) : Nat := bs.getD 8 0 / 64

/-- Spec-side description of the v3/v5 bit overwrite: the high nibble of
byte 6 becomes `v` (its low nibble is kept) and the top two bits of
byte 8 become binary 10 (its low six bits are kept). -/
def overwriteVersionVariant (v : Nat) (bs : List Nat) : List Nat :=
  (bs.set 6 (16 * v + bs.getD 6 0 % 16)).set 8 (128 + bs.getD 8 0 % 64)

/-- Byte values of a parsed v4 UUID as a function of the six random
words: a spec-side description of which random bits reach which byte,
with the version nibble fixed to 4 and the variant bits fixed to 10. -/
def v4Bytes (r0 r1 r2 r3 r4 r5 : Nat) : List Nat :=
  [r0 / 16777216 % 256, r0 / 65536 % 256, r0 / 256 % 256, r0 % 256,
   r1 / 256 % 256, r1 % 256,
   64 + r2 / 256 % 16, r2 % 256,
   128 + r3 / 256 % 64, r3 % 256,
   r4 / 256 % 256, r4 % 256,
   r5 / 16777216 % 256, r5 / 65536 % 256, r5 / 256 % 256, r5 % 256]

/-- Byte values 8..15 of a parsed v1mc UUID as a function of the three
random words: the full clock sequence (top two bits 10) and the node id
(first octet with the low two bits forced). -/
def v1mcBytes (w0 w1 w2 : Nat) : List Nat :=
  [128 + w0 / 256 % 64, w0 % 256,
   4 * (w1 / 1024 % 64) + 3, w1 % 256,
   w2 / 16777216 % 256, w2 / 65536 % 256, w2 / 256 % 256, w2 % 256]

theorem fmt_take36 (b0 b1 b2 b3 b4 b5 b6 b7 b8 b9 b10 b11 b12 b13 b14 b15 : Nat) :
    (fmtUUID b0 b1 b2 b3 b4 b5 b6 b7 b8 b9 b10 b11 b12 b13 b14 b15).take 36 =
    fmtUUID b0 b1 b2 b3 b4 b5 b6 b7 b8 b9 b10 b11 b12 b13 b14 b15 := by
  simp [fmtUUID, hex2]

theorem v1mcBuf_length (env : Env) : (v1mcBuf env).length = 18 := by
  simp [v1mcBuf, hex4, hex8, hex2]

theorem parse_v3 (ns name : List Nat) :
    parseUUID (uuidV3String ns name) =
      some (overwriteVersionVariant 3 ((md5 (ns ++ name)).take 16)) := by
  obtain ⟨d0, d1, d2, d3, d4, d5, d6, d7, d8, d9, d10, d11, d12, d13, d14, d15, hd⟩ :=
    exists_eq_list16 (md5 (ns ++ name)) (md5_length (ns ++ name))
  have hball : ∀ b ∈ [d0, d1, d2, d3, d4, d5, d6, d7, d8, d9, d10, d11, d12, d13, d14, d15],
      b < 256 := hd ▸ md5_mem_lt (ns ++ name)
  have h0 : d0 < 256 := hball d0 (by simp)
  have h1 : d1 < 256 := hball d1 (by simp)
  have h2 : d2 < 256 := hball d2 (by simp)
  have h3 : d3 < 256 := hball d3 (by simp)
  have h4 : d4 < 256 := hball d4 (by simp)
  have h5 : d5 < 256 := hball d5 (by simp)
  have h7 : d7 < 256 := hball d7 (by simp)
  have h9 : d9 < 256 := hball d9 (by simp)
  have h10 : d10 < 256 := hball d10 (by simp)
  have h11 : d11 < 256 := hball d11 (by simp)
  have h12 : d12 < 256 := hball d12 (by simp)
  have h13 : d13 < 256 := hball d13 (by simp)
  have h14 : d14 < 256 := hball d14 (by simp)
  have h15 : d15 < 256 := hball d15 (by simp)
  simp only [uuidV3String, overwriteVersionVariant, hd]
  rw [parse_fmt]
  simp [mask30, mask80]
  omega

theorem parse_v5 (ns name : List Nat) :
    parseUUID (uuidV5String ns name) =
      some (overwriteVersionVariant 5 ((sha1 (ns ++ name)).take 16)) := by
  obtain ⟨d0, d1, d2, d3, d4, d5, d6, d7, d8, d9, d10, d11, d12, d13, d14, d15, d16, d17,
      d18, d19, hd⟩ :=
    exists_eq_list20 (sha1 (ns ++ name)) (sha1_length (ns ++ name))
  have hball : ∀ b ∈ [d0, d1, d2, d3, d4, d5, d6, d7, d8, d9, d10, d11, d12, d13, d14, d15,
      d16, d17, d18, d19], b < 256 := hd ▸ sha1_mem_lt (ns ++ name)
  have h0 : d0 < 256 := hball d0 (by simp)
  have h1 : d1 < 256 := hball d1 (by simp)
  have h2 : d2 < 256 := hball d2 (by simp)
  have h3 : d3 < 256 := hball d3 (by simp)
  have h4 : d4 < 256 := hball d4 (by simp)
  have h5 : d5 < 256 := hball d5 (by simp)
  have h7 : d7 < 256 := hball d7 (by simp)
  have h9 : d9 < 256 := hball d9 (by simp)
  have h10 : d10 < 256 := hball d10 (by simp)
  have h11 : d11 < 256 := hball d11 (by simp)
  have h12 : d12 < 256 := hball d12 (by simp)
  have h13 : d13 < 256 := hball d13 (by simp)
  have h14 : d14 < 256 := hball d14 (by simp)
  have h15 : d15 < 256 := hball d15 (by simp)
  simp only [uuidV5String, overwriteVersionVariant, hd]
  rw [parse_fmt]
  simp [mask50, mask80]
  omega

theorem parse_v4 (env : Env) :
    parseUUID (v4String env) =
      some (v4Bytes (rand32 env 0) (rand32 env 1) (rand32 env 2) (rand32 env 3)
        (rand32 env 4) (rand32 env 5)) := by
  simp [v4String, v4Bytes, hex8, hex4, hex2, parseUUID, parseNibbles, pairUp,
        hexVal_hexChar, hexChar_ne_dash, mask4000, mask8000, and65535, nibble_pair]
  omega

theorem v1_ok_strings (env : Env)
    (p0 p1 p2 p3 p4 p5 p6 p7 p8 p9 p10 p11 p12 p13 p14 p15 : Nat)
    (hstr : env.providerStr = fmtUUID p0 p1 p2 p3 p4 p5 p6 p7 p8 p9 p10 p11 p12 p13 p14 p15)
    (hc : env.createStatus = uuid_s_ok) (hts : env.toStringStatus = uuid_s_ok) :
    uuid_generate_v1 env =
      Except.ok (fmtUUID p0 p1 p2 p3 p4 p5 p6 p7 p8 p9 p10 p11 p12 p13 p14 p15) ∧
    uuid_generate_v1mc env =
      Except.ok ((fmtUUID p0 p1 p2 p3 p4 p5 p6 p7 p8 p9 p10 p11 p12 p13 p14 p15).take 18 ++
        v1mcBuf env) ∧
    parseUUID ((fmtUUID p0 p1 p2 p3 p4 p5 p6 p7 p8 p9 p10 p11 p12 p13 p14 p15).take 18 ++
        v1mcBuf env) =
      some ([p0 % 256, p1 % 256, p2 % 256, p3 % 256, p4 % 256, p5 % 256, p6 % 256, p7 % 256] ++
        v1mcBytes (rand32 env 0) (rand32 env 1) (rand32 env 2)) := by
  refine ⟨?_, ?_, ?_⟩
  · simp [uuid_generate_v1, internal_uuid_create, hc, hts, hstr, fmt_take36]
  · simp [uuid_generate_v1mc, internal_uuid_create, hc, hts, hstr, fmt_take36,
          v1mcBuf_length]
  · simp [fmtUUID, hex2, v1mcBuf, hex4, hex8, mask8000, mask0300, parseUUID, parseNibbles,
          pairUp, hexVal_hexChar, hexChar_ne_dash, nibble_pair, v1mcBytes]
    omega

/-! ### Claim theorems -/

/-- C4: `generate_v3` and `generate_v5` are deterministic: two calls with
identical (namespace, name) arguments return identical UUID strings no
matter how the environment (random stream, provider state) differs; no
randomness enters these two strategies. -/
theorem c4_hash_deterministic (ns name : List Nat) (env1 env2 : Env) :
    uuid_generate_v3 env1 ns name = uuid_generate_v3 env2 ns name ∧
    uuid_generate_v5 env1 ns name = uuid_generate_v5 env2 ns name :=
  ⟨rfl, rfl⟩

/-- C6: the five constant producers are pure and deterministic with no
failure modes: for every environment, `nil` returns the all-zero UUID
and the four namespace producers return their fixed RFC 4122 constants,
both as canonical strings and as the 16 parsed bytes. -/
theorem c6_constants (env : Env) :
    (uuid_nil env = Except.ok (strBytes "00000000-0000-0000-0000-000000000000") ∧
     parseUUID (strBytes "00000000-0000-0000-0000-000000000000") =
       some (List.replicate 16 0)) ∧
    (uuid_ns_dns env = Except.ok (strBytes "6ba7b810-9dad-11d1-80b4-00c04fd430c8") ∧
     parseUUID (strBytes "6ba7b810-9dad-11d1-80b4-00c04fd430c8") = some dnsNamespaceBytes) ∧
    (uuid_ns_url env = Except.ok (strBytes "6ba7b811-9dad-11d1-80b4-00c04fd430c8") ∧
     parseUUID (strBytes "6ba7b811-9dad-11d1-80b4-00c04fd430c8") =
       some [0x6b, 0xa7, 0xb8, 0x11, 0x9d, 0xad, 0x11, 0xd1,
             0x80, 0xb4, 0x00, 0xc0, 0x4f, 0xd4, 0x30, 0xc8]) ∧
    (uuid_ns_oid env = Except.ok (strBytes "6ba7b812-9dad-11d1-80b4-00c04fd430c8") ∧
     parseUUID (strBytes "6ba7b812-9dad-11d1-80b4-00c04fd430c8") =
       some [0x6b, 0xa7, 0xb8, 0x12, 0x9d, 0xad, 0x11, 0xd1,
             0x80, 0xb4, 0x00, 0xc0, 0x4f, 0xd4, 0x30, 0xc8]) ∧
    (uuid_ns_x500 env = Except.ok (strBytes "6ba7b814-9dad-11d1-80b4-00c04fd430c8") ∧
     parseUUID (strBytes "6ba7b814-9dad-11d1-80b4-00c04fd430c8") =
       some [0x6b, 0xa7, 0xb8, 0x14, 0x9d, 0xad, 0x11, 0xd1,
             0x80, 0xb4, 0x00, 0xc0, 0x4f, 0xd4, 0x30, 0xc8]) :=
  ⟨⟨rfl, by decide⟩, ⟨rfl, by decide⟩, ⟨rfl, by decide⟩, ⟨rfl, by decide⟩, ⟨rfl, by decide⟩⟩

/-- C9: for `generate_v1` and `generate_v1mc`, a non-success status from
either provider step (`uuid_create`, or `uuid_to_string` on conversion)
makes the call fail with exactly that numeric status code, and a UUID is
returned only when both steps reported success. -/
theorem c9_provider_error_propagation (env : Env) :
    (env.createStatus ≠ uuid_s_ok →
       uuid_generate_v1 env = Except.error env.createStatus ∧
       uuid_generate_v1mc env = Except.error env.createStatus) ∧
    (env.createStatus = uuid_s_ok → env.toStringStatus ≠ uuid_s_ok →
       uuid_generate_v1 env = Except.error env.toStringStatus ∧
       uuid_generate_v1mc env = Except.error env.toStringStatus) ∧
    (∀ s, uuid_generate_v1 env = Except.ok s →
       env.createStatus = uuid_s_ok ∧ env.toStringStatus = uuid_s_ok) ∧
    (∀ s, uuid_generate_v1mc env = Except.ok s →
       env.createStatus = uuid_s_ok ∧ env.toStringStatus = uuid_s_ok) := by
  refine ⟨fun h => ?_, fun h1 h2 => ?_, fun s hs => ?_, fun s hs => ?_⟩
  · constructor <;>
      simp [uuid_generate_v1, uuid_generate_v1mc, internal_uuid_create, h]
  · constructor <;>
      simp [uuid_generate_v1, uuid_generate_v1mc, internal_uuid_create, h1, h2]
  · by_cases hc : env.createStatus = uuid_s_ok <;>
      by_cases ht : env.toStringStatus = uuid_s_ok
    · exact ⟨hc, ht⟩
    all_goals simp [uuid_generate_v1, internal_uuid_create, hc, ht] at hs
  · by_cases hc : env.createStatus = uuid_s_ok <;>
      by_cases ht : env.toStringStatus = uuid_s_ok
    · exact ⟨hc, ht⟩
    all_goals simp [uuid_generate_v1mc, internal_uuid_create, hc, ht] at hs

/-- Environment whose `uuid_create` step fails with status 5. -/
def envCreateFail : Env := ⟨fun _ => 0, 5, [], 0⟩

/-- Environment whose `uuid_to_string` step fails with status 7. -/
def envToStringFail : Env :=
  ⟨fun _ => 0, 0, strBytes "11112222-3333-1444-9555-666677778888", 7⟩

/-- Witness for C9: with a concrete failing provider, both generators
surface exactly the provider's status code. -/
theorem c9_witness :
    (envCreateFail.createStatus ≠ uuid_s_ok ∧
     uuid_generate_v1 envCreateFail = Except.error 5 ∧
     uuid_generate_v1mc envCreateFail = Except.error 5) ∧
    (envToStringFail.createStatus = uuid_s_ok ∧
     envToStringFail.toStringStatus ≠ uuid_s_ok ∧
     uuid_generate_v1 envToStringFail = Except.error 7) := by
  refine ⟨⟨by decide, ?_, ?_⟩, rfl, by decide, ?_⟩
  · exact ((c9_provider_error_propagation envCreateFail).1 (by decide)).1
  · exact ((c9_provider_error_propagation envCreateFail).1 (by decide)).2
  · exact ((c9_provider_error_propagation envToStringFail).2.1 rfl (by decide)).1

set_option maxRecDepth 100000 in
/-- C3: `generate_v5` applied to the DNS namespace constant and the name
`www.example.com` yields the published RFC 4122 reference UUID
`2ed6657d-e927-568b-95e1-2665a8aea6a2`. -/
theorem c3_v5_known_vector :
    uuid_ns_dns envTriv = Except.ok (strBytes "6ba7b810-9dad-11d1-80b4-00c04fd430c8") ∧
    parseUUID (strBytes "6ba7b810-9dad-11d1-80b4-00c04fd430c8") = some dnsNamespaceBytes ∧
    uuid_generate_v5 envTriv dnsNamespaceBytes (strBytes "www.example.com") =
      Except.ok (strBytes "2ed6657d-e927-568b-95e1-2665a8aea6a2") ∧
    parseUUID (strBytes "2ed6657d-e927-568b-95e1-2665a8aea6a2") =
      some [0x2e, 0xd6, 0x65, 0x7d, 0xe9, 0x27, 0x56, 0x8b,
            0x95, 0xe1, 0x26, 0x65, 0xa8, 0xae, 0xa6, 0xa2] :=
  ⟨rfl, by decide, congrArg Except.ok (by decide), by decide⟩

/-- C1: for every namespace byte list and name byte list, `generate_v3`
(resp. `generate_v5`) returns the UUID whose bytes are the first 16
bytes of the MD5 (resp. SHA-1) digest of the namespace bytes followed by
the name bytes, with the version nibble of byte 6 overwritten to 3
(resp. 5) and the top two bits of byte 8 overwritten to binary 10;
SHA-1's extra four digest bytes are discarded by the 16-byte truncation. -/
theorem c1_hash_construction (env : Env) (ns name : List Nat) :
    uuid_generate_v3 env ns name = Except.ok (uuidV3String ns name) ∧
    parseUUID (uuidV3String ns name) =
      some (overwriteVersionVariant 3 ((md5 (ns ++ name)).take 16)) ∧
    uuid_generate_v5 env ns name = Except.ok (uuidV5String ns name) ∧
    parseUUID (uuidV5String ns name) =
      some (overwriteVersionVariant 5 ((sha1 (ns ++ name)).take 16)) :=
  ⟨rfl, parse_v3 ns name, rfl, parse_v5 ns name⟩

/-- C5: `generate_v4` builds its value from six words of the random
source: every byte other than the two carrying forced bits is a full
random byte, byte 6 is 4 in the high nibble over a random low nibble,
byte 8 is binary 10 in the top bits over six random bits; conversely
every byte string satisfying the version/variant constraint is reached
by some outcome of the random source. -/
theorem c5_v4_random (env : Env) :
    uuid_generate_v4 env = Except.ok (v4String env) ∧
    parseUUID (v4String env) =
      some (v4Bytes (rand32 env 0) (rand32 env 1) (rand32 env 2) (rand32 env 3)
        (rand32 env 4) (rand32 env 5)) ∧
    versionNibble (v4Bytes (rand32 env 0) (rand32 env 1) (rand32 env 2) (rand32 env 3)
        (rand32 env 4) (rand32 env 5)) = 4 ∧
    variantBits (v4Bytes (rand32 env 0) (rand32 env 1) (rand32 env 2) (rand32 env 3)
        (rand32 env 4) (rand32 env 5)) = 2 ∧
    (∀ b0 b1 b2 b3 b4 b5 b6 b7 b8 b9 b10 b11 b12 b13 b14 b15 : Nat,
      b0 < 256 → b1 < 256 → b2 < 256 → b3 < 256 → b4 < 256 → b5 < 256 → b6 < 256 →
      b7 < 256 → b8 < 256 → b9 < 256 → b10 < 256 → b11 < 256 → b12 < 256 → b13 < 256 →
      b14 < 256 → b15 < 256 → b6 / 16 = 4 → b8 / 64 = 2 →
      ∃ env2 : Env, parseUUID (v4String env2) =
        some [b0, b1, b2, b3, b4, b5, b6, b7, b8, b9, b10, b11, b12, b13, b14, b15]) := by
  refine ⟨rfl, parse_v4 env, ?_, ?_, ?_⟩
  · simp [versionNibble, v4Bytes]
    omega
  · simp [variantBits, v4Bytes]
    omega
  · intro b0 b1 b2 b3 b4 b5 b6 b7 b8 b9 b10 b11 b12 b13 b14 b15
    intro h0 h1 h2 h3 h4 h5 h6 h7 h8 h9 h10 h11 h12 h13 h14 h15 hv hr
    refine ⟨⟨fun i =>
      if i = 0 then b0 * 16777216 + b1 * 65536 + b2 * 256 + b3
      else if i = 1 then b4 * 256 + b5
      else if i = 2 then (b6 % 16) * 256 + b7
      else if i = 3 then (b8 % 64) * 256 + b9
      else if i = 4 then b10 * 256 + b11
      else b12 * 16777216 + b13 * 65536 + b14 * 256 + b15, 0, [], 0⟩, ?_⟩
    rw [parse_v4]
    simp [v4Bytes, rand32, M32]
    omega

/-- Witness for C5: the constraint side conditions hold at a concrete
byte pattern and the surjectivity part produces an environment for it. -/
theorem c5_witness :
    uuid_generate_v4 envTriv = Except.ok (v4String envTriv) ∧
    (∃ env2 : Env, parseUUID (v4String env2) =
      some [0, 0, 0, 0, 0, 0, 0x45, 0, 0x91, 0, 0, 0, 0, 0, 0, 0]) := by
  refine ⟨(c5_v4_random envTriv).1, ?_⟩
  exact (c5_v4_random envTriv).2.2.2.2 0 0 0 0 0 0 0x45 0 0x91 0 0 0 0 0 0 0
    (by norm_num) (by norm_num) (by norm_num) (by norm_num) (by norm_num) (by norm_num)
    (by norm_num) (by norm_num) (by norm_num) (by norm_num) (by norm_num) (by norm_num)
    (by norm_num) (by norm_num) (by norm_num) (by norm_num) (by norm_num) (by norm_num)

/-- Fields of a v3/v5 result: the overwrite forces version `v` and
variant 10 on any 16-byte digest truncation. -/
theorem overwrite_fields (v : Nat) (l : List Nat) (h : l.length = 16) :
    versionNibble (overwriteVersionVariant v l) = v ∧
    variantBits (overwriteVersionVariant v l) = 2 := by
  obtain ⟨a0, a1, a2, a3, a4, a5, a6, a7, a8, a9, a10, a11, a12, a13, a14, a15, hl⟩ :=
    exists_eq_list16 l h
  subst hl
  constructor
  · simp [versionNibble, overwriteVersionVariant]
    omega
  · simp [variantBits, overwriteVersionVariant]
    omega

/-- C2: every generated UUID of version v in {1, 3, 4, 5} has its version
nibble equal to v and its variant bits equal to binary 10, for every
outcome of the random source and every digest, given that the host
provider behind `generate_v1`/`generate_v1mc` emits a canonical v1
string. -/
theorem c2_version_variant (env : Env) (ns name : List Nat)
    (p0 p1 p2 p3 p4 p5 p6 p7 p8 p9 p10 p11 p12 p13 p14 p15 : Nat)
    (hstr : env.providerStr = fmtUUID p0 p1 p2 p3 p4 p5 p6 p7 p8 p9 p10 p11 p12 p13 p14 p15)
    (hbytes : p0 < 256 ∧ p1 < 256 ∧ p2 < 256 ∧ p3 < 256 ∧ p4 < 256 ∧ p5 < 256 ∧
      p6 < 256 ∧ p7 < 256 ∧ p8 < 256 ∧ p9 < 256 ∧ p10 < 256 ∧ p11 < 256 ∧ p12 < 256 ∧
      p13 < 256 ∧ p14 < 256 ∧ p15 < 256)
    (hver : p6 / 16 = 1) (hvar : p8 / 64 = 2)
    (hc : env.createStatus = uuid_s_ok) (hts : env.toStringStatus = uuid_s_ok) :
    (∀ s bs, uuid_generate_v1 env = Except.ok s → parseUUID s = some bs →
      versionNibble bs = 1 ∧ variantBits bs = 2) ∧
    (∀ s bs, uuid_generate_v1mc env = Except.ok s → parseUUID s = some bs →
      versionNibble bs = 1 ∧ variantBits bs = 2) ∧
    (∀ s bs, uuid_generate_v3 env ns name = Except.ok s → parseUUID s = some bs →
      versionNibble bs = 3 ∧ variantBits bs = 2) ∧
    (∀ s bs, uuid_generate_v4 env = Except.ok s → parseUUID s = some bs →
      versionNibble bs = 4 ∧ variantBits bs = 2) ∧
    (∀ s bs, uuid_generate_v5 env ns name = Except.ok s → parseUUID s = some bs →
      versionNibble bs = 5 ∧ variantBits bs = 2) := by
  obtain ⟨hb0, hb1, hb2, hb3, hb4, hb5, hb6, hb7, hb8, hb9, hb10, hb11, hb12, hb13, hb14,
    hb15⟩ := hbytes
  have hv1 := v1_ok_strings env p0 p1 p2 p3 p4 p5 p6 p7 p8 p9 p10 p11 p12 p13 p14 p15
    hstr hc hts
  refine ⟨?_, ?_, ?_, ?_, ?_⟩
  · intro s bs hs hbs
    rw [hv1.1] at hs
    simp only [Except.ok.injEq] at hs
    subst hs
    rw [parse_fmt] at hbs
    simp only [Option.some.injEq] at hbs
    subst hbs
    constructor
    · simp [versionNibble]
      omega
    · simp [variantBits]
      omega
  · intro s bs hs hbs
    rw [hv1.2.1] at hs
    simp only [Except.ok.injEq] at hs
    subst hs
    rw [hv1.2.2] at hbs
    simp only [Option.some.injEq] at hbs
    subst hbs
    constructor
    · simp [versionNibble, v1mcBytes]
      omega
    · simp [variantBits, v1mcBytes]
      omega
  · intro s bs hs hbs
    have heq : uuid_generate_v3 env ns name = Except.ok (uuidV3String ns name) := rfl
    rw [heq] at hs
    simp only [Except.ok.injEq] at hs
    subst hs
    rw [parse_v3] at hbs
    simp only [Option.some.injEq] at hbs
    subst hbs
    exact overwrite_fields 3 _ (by simp [List.length_take, md5_length])
  · intro s bs hs hbs
    have heq : uuid_generate_v4 env = Except.ok (v4String env) := rfl
    rw [heq] at hs
    simp only [Except.ok.injEq] at hs
    subst hs
    rw [parse_v4] at hbs
    simp only [Option.some.injEq] at hbs
    subst hbs
    constructor
    · simp [versionNibble, v4Bytes]
      omega
    · simp [variantBits, v4Bytes]
      omega
  · intro s bs hs hbs
    have heq : uuid_generate_v5 env ns name = Except.ok (uuidV5String ns name) := rfl
    rw [heq] at hs
    simp only [Except.ok.injEq] at hs
    subst hs
    rw [parse_v5] at hbs
    simp only [Option.some.injEq] at hbs
    subst hbs
    exact overwrite_fields 5 _ (by simp [List.length_take, sha1_length])

/-- Environment with a successful provider that emitted the canonical v1
string of the bytes 11 11 22 22 33 33 1a 44 85 55 66 66 77 77 88 88. -/
def envProv : Env :=
  ⟨fun _ => 0, 0, fmtUUID 17 17 34 34 51 51 26 68 133 85 102 102 119 119 136 136, 0⟩

/-- Witness for C2: the provider hypotheses hold at a concrete valid v1
environment and the invariant follows there. -/
theorem c2_witness :
    envProv.providerStr = fmtUUID 17 17 34 34 51 51 26 68 133 85 102 102 119 119 136 136 ∧
    (26 : Nat) / 16 = 1 ∧ (133 : Nat) / 64 = 2 ∧
    (∀ s bs, uuid_generate_v1 envProv = Except.ok s → parseUUID s = some bs →
      versionNibble bs = 1 ∧ variantBits bs = 2) := by
  refine ⟨rfl, by norm_num, by norm_num, ?_⟩
  exact (c2_version_variant envProv [] [] 17 17 34 34 51 51 26 68 133 85 102 102 119 119
    136 136 rfl (by norm_num) (by norm_num) (by norm_num) rfl rfl).1

/-- C7: for every outcome of the random source, the first octet of the
node field (byte 10) of a `generate_v1mc` result has both the IEEE 802
multicast bit (bit 0) and the local-administration bit (bit 1) set. -/
theorem c7_v1mc_node_bits (env : Env)
    (p0 p1 p2 p3 p4 p5 p6 p7 p8 p9 p10 p11 p12 p13 p14 p15 : Nat)
    (hstr : env.providerStr = fmtUUID p0 p1 p2 p3 p4 p5 p6 p7 p8 p9 p10 p11 p12 p13 p14 p15)
    (hc : env.createStatus = uuid_s_ok) (hts : env.toStringStatus = uuid_s_ok) :
    ∀ s bs, uuid_generate_v1mc env = Except.ok s → parseUUID s = some bs →
      bs.getD 10 0 % 2 = 1 ∧ bs.getD 10 0 / 2 % 2 = 1 := by
  intro s bs hs hbs
  have hv1 := v1_ok_strings env p0 p1 p2 p3 p4 p5 p6 p7 p8 p9 p10 p11 p12 p13 p14 p15
    hstr hc hts
  rw [hv1.2.1] at hs
  simp only [Except.ok.injEq] at hs
  subst hs
  rw [hv1.2.2] at hbs
  simp only [Option.some.injEq] at hbs
  subst hbs
  simp [v1mcBytes]
  omega

/-- Witness for C7: the node-octet bits are forced in a concrete valid
environment. -/
theorem c7_witness :
    envProv.providerStr = fmtUUID 17 17 34 34 51 51 26 68 133 85 102 102 119 119 136 136 ∧
    envProv.createStatus = uuid_s_ok ∧
    (∀ s bs, uuid_generate_v1mc envProv = Except.ok s → parseUUID s = some bs →
      bs.getD 10 0 % 2 = 1 ∧ bs.getD 10 0 / 2 % 2 = 1) :=
  ⟨rfl, rfl, c7_v1mc_node_bits envProv 17 17 34 34 51 51 26 68 133 85 102 102 119 119
    136 136 rfl rfl rfl⟩

/-- C8: `generate_v1mc` is `generate_v1` with exactly the last 18 of the
36 characters replaced by the locally generated random tail; the first
18 characters are exactly those of the provider's v1 string. -/
theorem c8_v1mc_frame (env : Env) (hc : env.createStatus = uuid_s_ok)
    (hts : env.toStringStatus = uuid_s_ok) (hlen : env.providerStr.length = 36) :
    uuid_generate_v1 env = Except.ok env.providerStr ∧
    uuid_generate_v1mc env = Except.ok (env.providerStr.take 18 ++ v1mcBuf env) ∧
    (v1mcBuf env).length = 18 ∧
    (env.providerStr.take 18 ++ v1mcBuf env).length = 36 ∧
    (env.providerStr.take 18 ++ v1mcBuf env).take 18 = env.providerStr.take 18 ∧
    (env.providerStr.take 18 ++ v1mcBuf env).drop 18 = v1mcBuf env := by
  have htake : env.providerStr.take 36 = env.providerStr := by
    rw [← hlen]
    exact List.take_length env.providerStr
  have hlen18 : (env.providerStr.take 18).length = 18 := by
    simp [List.length_take, hlen]
  refine ⟨?_, ?_, v1mcBuf_length env, ?_, ?_, ?_⟩
  · simp [uuid_generate_v1, internal_uuid_create, hc, hts, htake]
  · simp [uuid_generate_v1mc, internal_uuid_create, hc, hts, htake, v1mcBuf_length,
          List.take_take]
  · simp [List.length_append, hlen18, v1mcBuf_length]
  · exact List.take_left' hlen18
  · exact List.drop_left' hlen18

/-- Witness for C8: the frame property at a concrete successful
environment. -/
theorem c8_witness :
    envProv.createStatus = uuid_s_ok ∧ envProv.toStringStatus = uuid_s_ok ∧
    envProv.providerStr.length = 36 ∧
    uuid_generate_v1 envProv = Except.ok envProv.providerStr ∧
    (envProv.providerStr.take 18 ++ v1mcBuf envProv).drop 18 = v1mcBuf envProv := by
  refine ⟨rfl, rfl, by decide, ?_, ?_⟩
  · exact (c8_v1mc_frame envProv rfl rfl (by decide)).1
  · exact (c8_v1mc_frame envProv rfl rfl (by decide)).2.2.2.2.2

/-- C10: `generate_v1mc` replaces both clock-sequence bytes with bits of
the first random word, forcing the top two bits to binary 10: byte 8 and
byte 9 of the result are functions of that word alone, so the 14-bit
clock sequence is independent of the provider's persistent state. -/
theorem c10_v1mc_clock_sequence (env : Env)
    (p0 p1 p2 p3 p4 p5 p6 p7 p8 p9 p10 p11 p12 p13 p14 p15 : Nat)
    (hstr : env.providerStr = fmtUUID p0 p1 p2 p3 p4 p5 p6 p7 p8 p9 p10 p11 p12 p13 p14 p15)
    (hc : env.createStatus = uuid_s_ok) (hts : env.toStringStatus = uuid_s_ok) :
    ∀ s bs, uuid_generate_v1mc env = Except.ok s → parseUUID s = some bs →
      bs.getD 8 0 = 128 + rand32 env 0 / 256 % 64 ∧
      bs.getD 9 0 = rand32 env 0 % 256 ∧
      bs.getD 8 0 / 64 = 2 ∧
      bs.getD 8 0 % 64 * 256 + bs.getD 9 0 = rand32 env 0 % 16384 := by
  intro s bs hs hbs
  have hv1 := v1_ok_strings env p0 p1 p2 p3 p4 p5 p6 p7 p8 p9 p10 p11 p12 p13 p14 p15
    hstr hc hts
  rw [hv1.2.1] at hs
  simp only [Except.ok.injEq] at hs
  subst hs
  rw [hv1.2.2] at hbs
  simp only [Option.some.injEq] at hbs
  subst hbs
  refine ⟨by simp [v1mcBytes], by simp [v1mcBytes], ?_, ?_⟩
  · simp [v1mcBytes]
    omega
  · simp [v1mcBytes]
    omega

/-- Witness for C10: the clock-sequence bytes are the random word's bits
in a concrete valid environment. -/
theorem c10_witness :
    envProv.providerStr = fmtUUID 17 17 34 34 51 51 26 68 133 85 102 102 119 119 136 136 ∧
    envProv.toStringStatus = uuid_s_ok ∧
    (∀ s bs, uuid_generate_v1mc envProv = Except.ok s → parseUUID s = some bs →
      bs.getD 8 0 = 128 + rand32 envProv 0 / 256 % 64 ∧
      bs.getD 9 0 = rand32 envProv 0 % 256 ∧
      bs.getD 8 0 / 64 = 2 ∧
      bs.getD 8 0 % 64 * 256 + bs.getD 9 0 = rand32 envProv 0 % 16384) :=
  ⟨rfl, rfl, c10_v1mc_clock_sequence envProv 17 17 34 34 51 51 26 68 133 85 102 102 119
    119 136 136 rfl rfl rfl⟩

end UuidFreebsd
